import Mathlib

/-!
Verification development for the rule-driven ARXML structural validator
(src/scripts/arxml_validator.py).  The Python script is embedded shallowly:

* CPython string primitives used by the script (str.replace, str.split,
  str.strip, the in substring test) are modelled as executable functions on
  List Char / String.
* normalize_xpath and evaluate_condition are translated line by line.
* The module-level main loop (scan, parse, per-rule query, per-node
  evaluation, row emission) is translated into total functions returning
  Except EngineError (List Row), where an error models an uncaught Python
  exception escaping the loop and a returned list models the results table
  handed to the report sink.
* The external collaborators (lxml parsing, lxml xpath evaluation, the re
  module) are passed in as function-valued parameters: a parsed document is
  its xpath evaluator, and the regular-expression matcher is a parameter
  that either returns a boolean or raises (models re.error for a malformed
  pattern).
-/

/-- Python substring test, the in operator on str: true iff pat occurs
contiguously inside the scanned list. -/
def listIsSubstr (pat : List Char) : List Char → Bool
  | [] => pat.isEmpty
  | c :: cs => pat.isPrefixOf (c :: cs) || listIsSubstr pat cs

/-- Fuel-driven model of CPython str.replace: scans left to right, replacing
non-overlapping occurrences of pat by repl and never rescanning the
replacement text it just emitted is NOT how CPython works; CPython rescans
nothing of repl either -- each match consumes pat from the input and the scan
resumes after it, exactly as here.  Faithful for nonempty pat whenever fuel
is at least the length of the scanned list (each step consumes at least one
input character).  The source only ever replaces the nonempty patterns
// and /. -/
def replaceFuel (pat repl : List Char) : Nat → List Char → List Char
  | _, [] => []
  | 0, l => l
  | fuel + 1, c :: cs =>
    if !pat.isEmpty && pat.isPrefixOf (c :: cs) then
      repl ++ replaceFuel pat repl fuel (cs.drop (pat.length - 1))
    else
      c :: replaceFuel pat repl fuel cs

/-- Python s.replace(pat, repl). -/
def pyReplace (s pat repl : String) : String :=
  ⟨replaceFuel pat.data repl.data s.data.length s.data⟩

/-- Python s.split(sep) for a single-character separator: keeps empty
fields, and the empty string splits to one empty field. -/
def splitChar (sep : Char) : List Char → List (List Char)
  | [] => [[]]
  | c :: cs =>
    if c = sep then [] :: splitChar sep cs
    else
      match splitChar sep cs with
      | [] => [[c]]
      | h :: t => (c :: h) :: t

/-- Python s.split(sep) lifted to String. -/
def pySplit (s : String) (sep : Char) : List String :=
  (splitChar sep s.data).map fun l => ⟨l⟩

/-- Python s.strip(): remove leading and trailing whitespace. -/
def pyStrip (s : String) : String :=
  ⟨((s.data.dropWhile Char.isWhitespace).reverse.dropWhile Char.isWhitespace).reverse⟩

/-- The ignore-namespace marker that normalize_xpath tests for with the
Python in operator. -/
def marker : String := "local-name()"

/-- normalize_xpath from src/scripts/arxml_validator.py lines 34-41:

    if "local-name()" in xpath: return xpath
    return xpath.replace("//", "//*[local-name()=...") \
                .replace("/", "...][local-name()=...") + "...]"

(the elided characters are single quotes, written as \x27 below). -/
def normalize_xpath (xpath : String) : String :=
  if listIsSubstr marker.data xpath.data then xpath
  else
    pyReplace (pyReplace xpath "//" "//*[local-name()=\x27") "/" "\x27][local-name()=\x27"
      ++ "\x27]"

/-- The regular-expression collaborator: models re.match(pattern, s) is not
None, where an error value models the re.error exception CPython raises on a
malformed pattern. -/
abbrev Matcher := String → String → Except String Bool

/-- evaluate_condition from src/scripts/arxml_validator.py lines 20-31.
actual is Option String because Python None is a legal argument (the EXISTS
and REGEX branches treat it specially); at the single call site in main the
argument is always a string.  The REGEX branch delegates to the matcher
collaborator and is the only branch that can raise. -/
def evaluate_condition (rmatch : Matcher) (actual : Option String)
    (expected condition : String) : Except String Bool :=
  if condition = "EQUALS" then .ok (actual == some expected)
  else if condition = "NOT_EQUALS" then .ok (!(actual == some expected))
  else if condition = "EXISTS" then .ok (!(actual == none || actual == some ""))
  else if condition = "IN" then
    .ok (((pySplit expected ',').map pyStrip).any fun t => actual == some t)
  else if condition = "REGEX" then rmatch expected (actual.getD "")
  else .ok false

/-- One result row: the Python code appends plain lists of strings to
results, so a row is a List String (the parse-error row has 7 entries, every
other row has 8). -/
abbrev Row := List String

/-- The status slot of a row: its last entry (the Python code always writes
the status last). -/
def rowStatus : Row → String
  | [] => ""
  | [s] => s
  | _ :: s :: r => rowStatus (s :: r)

/-- A rule record as read from rules.json: every field may be absent, and
main applies rule.get defaults (lines 73-79). -/
structure RuleJson where
  rule_id : Option String
  description : Option String
  xpath : Option String
  condition : Option String
  expected : Option String
  mandatory : Option Bool
deriving DecidableEq

/-- A parsed document, reduced to its query collaborator: root.xpath(expr)
either raises (error, message unused by the source) or returns the matched
nodes, each reduced to its elem.text (None possible). -/
abbrev XTreeQuery := String → Except String (List (Option String))

/-- A scanned file: path relative to the scan root, file name, and the
outcome of etree.parse (error carries str(e)). -/
structure Document where
  rel_path : String
  file_name : String
  parse : Except String XTreeQuery

/-- An abort of the whole run: either the SystemExit raised when no rules
load (line 51), or an exception escaping evaluate_condition (the per-node
loop at lines 98-105 has no try/except). -/
inductive EngineError where
  | noRules (msg : String)
  | evalFault (msg : String)
deriving DecidableEq

/-- The per-node loop of main (lines 98-105): for each matched node, strip
its text, evaluate the condition, and append a PASS or FAIL row.  An
exception from evaluate_condition escapes the loop. -/
def evalElements (rmatch : Matcher)
    (rel file rule_id desc xpath expected condition : String) :
    List (Option String) → Except EngineError (List Row)
  | [] => .ok []
  | t :: ts =>
    match evaluate_condition rmatch (some (pyStrip (t.getD ""))) expected condition with
    | .error e => .error (.evalFault e)
    | .ok b =>
      match evalElements rmatch rel file rule_id desc xpath expected condition ts with
      | .error e => .error e
      | .ok rows =>
        .ok ([rel, file, rule_id, desc, xpath, expected, pyStrip (t.getD ""),
              if b then "PASS" else "FAIL"] :: rows)

/-- The body of the rule loop of main (lines 73-105) for one rule: read the
rule fields with their defaults, run the query (a query exception yields one
INVALID_XPATH row), emit the no-match row, or evaluate every matched node. -/
def processRule (rmatch : Matcher) (rel file : String) (tree : XTreeQuery)
    (rule : RuleJson) : Except EngineError (List Row) :=
  let rule_id := rule.rule_id.getD "UNKNOWN"
  let desc := rule.description.getD ""
  let xpath := normalize_xpath (rule.xpath.getD "")
  let condition := rule.condition.getD ""
  let expected := rule.expected.getD ""
  let mandatory := rule.mandatory.getD true
  match tree xpath with
  | .error _ => .ok [[rel, file, rule_id, desc, xpath, expected, "", "INVALID_XPATH"]]
  | .ok [] =>
    .ok [[rel, file, rule_id, desc, xpath, expected, "",
          if mandatory then "FAIL" else "SKIP"]]
  | .ok (t :: ts) =>
    evalElements rmatch rel file rule_id desc xpath expected condition (t :: ts)

/-- The rule loop of main for one parsed document. -/
def runRules (rmatch : Matcher) (rel file : String) (tree : XTreeQuery) :
    List RuleJson → Except EngineError (List Row)
  | [] => .ok []
  | r :: rs =>
    match processRule rmatch rel file tree r with
    | .error e => .error e
    | .ok rows =>
      match runRules rmatch rel file tree rs with
      | .error e => .error e
      | .ok rest => .ok (rows ++ rest)

/-- One document of the scan loop (lines 63-105): a parse failure appends
the single 7-entry row of lines 67-70 and skips the rule loop; a parsed
document runs every rule. -/
def processDocument (rmatch : Matcher) (rules : List RuleJson) (doc : Document) :
    Except EngineError (List Row) :=
  match doc.parse with
  | .error e => .ok [[doc.rel_path, doc.file_name, "PARSE_ERROR", "", "", e, "FAIL"]]
  | .ok tree => runRules rmatch doc.rel_path doc.file_name tree rules

/-- The extension filter of line 55: file.lower().endswith(".arxml"). -/
def isArxmlName (file : String) : Bool :=
  ".arxml".data.isSuffixOf (file.data.map Char.toLower)

/-- The scan loop of main over the walked files, in walk order. -/
def runDocs (rmatch : Matcher) (rules : List RuleJson) :
    List Document → Except EngineError (List Row)
  | [] => .ok []
  | d :: ds =>
    if isArxmlName d.file_name then
      match processDocument rmatch rules d with
      | .error e => .error e
      | .ok rows =>
        match runDocs rmatch rules ds with
        | .error e => .error e
        | .ok rest => .ok (rows ++ rest)
    else runDocs rmatch rules ds

/-- The module-level main of the script (lines 45-105): abort with
SystemExit when no rules loaded (line 51), otherwise process every walked
file; .ok rows is the results table handed to the report sink, .error an
uncaught exception. -/
def mainLoop (rmatch : Matcher) (rules : List RuleJson) (docs : List Document) :
    Except EngineError (List Row) :=
  if rules.isEmpty then .error (.noRules "ERROR: No rules loaded")
  else runDocs rmatch rules docs

/-- The report column list of lines 108-117. -/
def reportColumns : List String :=
  ["ARXML Path", "ARXML File", "Rule ID", "Description", "XPath",
   "Expected", "Actual", "Status"]

/-- Whether an Except value is a success. -/
def exceptIsOk : Except ε α → Bool
  | .ok _ => true
  | .error _ => false

/-- A matcher that never raises: models re.match on a well-formed pattern
that always matches (the concrete pattern is irrelevant to the claims that
use it). -/
def okMatcher : Matcher := fun _ _ => .ok true

/-- A matcher collaborator that models CPython re.match raising re.error for
the malformed pattern consisting of a single opening bracket, as
re.compile does for an unterminated character set. -/
def badPatternMatcher : Matcher := fun pat _ =>
  if pat = "[" then .error "unterminated character set at position 0" else .ok false

/-- A document tree whose every query returns one node with text 1.0.0. -/
def goodTree : XTreeQuery := fun _ => .ok [some "1.0.0"]

/-- A document tree whose every query returns no node. -/
def emptyTree : XTreeQuery := fun _ => .ok []

/-- A document tree whose every query returns one node with text
padded by spaces. -/
def spacedTree : XTreeQuery := fun _ => .ok [some " x "]

/-- A document tree on which every query raises, as lxml does on a
syntactically invalid expression. -/
def failTree : XTreeQuery := fun _ => .error "XPathEvalError: Invalid expression"

/-- A document that parses and answers every query with one node. -/
def docParsed : Document := ⟨"a.arxml", "a.arxml", .ok goodTree⟩

/-- A document whose parse fails. -/
def docBad : Document := ⟨"bad.arxml", "bad.arxml", .error "invalid XML"⟩

/-- A document that parses but rejects every query. -/
def docQueryFails : Document := ⟨"q.arxml", "q.arxml", .ok failTree⟩

/-- A fully populated mandatory EQUALS rule. -/
def eqRule : RuleJson :=
  ⟨some "R1", some "version check", some "/A/B", some "EQUALS", some "1.0.0", some true⟩

/-- A fully populated optional EXISTS rule. -/
def skipRule : RuleJson :=
  ⟨some "R2", some "optional rule", some "/A/B", some "EXISTS", some "", some false⟩

/-- A mandatory REGEX rule whose expected value is a malformed pattern. -/
def regexRule : RuleJson :=
  ⟨some "R3", some "regex check", some "/A/B", some "REGEX", some "[", some true⟩

/-- A rule record with every field absent. -/
def noCondRule : RuleJson := ⟨none, none, some "/A/B", none, none, none⟩

/-- The row a query rejection actually produces in a concrete run. -/
def invalidRow : Row :=
  ["q.arxml", "q.arxml", "R1", "version check", normalize_xpath "/A/B", "1.0.0",
   "", "INVALID_XPATH"]

/-- The PASS row of the concrete one-rule one-node run. -/
def passRow : Row :=
  ["a.arxml", "a.arxml", "R1", "version check", normalize_xpath "/A/B", "1.0.0",
   "1.0.0", "PASS"]

/-- The row the concrete failed parse produces. -/
def parseRow : Row :=
  ["bad.arxml", "bad.arxml", "PARSE_ERROR", "", "", "invalid XML", "FAIL"]

/-- The condition dispatch falls through every recognised branch and
returns False for the empty (defaulted) condition string. -/
theorem evaluate_condition_unknown (rmatch : Matcher) (a : Option String) (e : String) :
    evaluate_condition rmatch a e "" = .ok false := by
  unfold evaluate_condition
  rw [if_neg (by decide), if_neg (by decide), if_neg (by decide), if_neg (by decide),
    if_neg (by decide)]

/-- With the defaulted empty condition every matched node produces a FAIL
row. -/
theorem evalElements_unknown_cond (rmatch : Matcher) (rel file rid d xp ex : String) :
    ∀ ts, evalElements rmatch rel file rid d xp ex "" ts =
      .ok (ts.map fun u => [rel, file, rid, d, xp, ex, pyStrip (u.getD ""), "FAIL"]) := by
  intro ts
  induction ts with
  | nil => rfl
  | cons t ts ih =>
    simp only [evalElements]
    rw [evaluate_condition_unknown, ih]
    rfl

/-- C1 (code bug): normalize_xpath applied to the plain absolute path /A/B
does not produce a well-formed query rooted at the document root: the chained
replace calls yield an expression that begins with a stray quote-bracket
instead of a root step, so the claimed namespace-agnostic rooted query is not
produced. -/
theorem C1_normalize_not_rooted :
    normalize_xpath "/A/B" = "\x27][local-name()=\x27A\x27][local-name()=\x27B\x27]" ∧
    (normalize_xpath "/A/B").data.head? ≠ some '/' := by decide

/-- C5 (code bug): normalize_xpath applied to the expression consisting only
of the separator does produce an empty-step fragment: the result contains the
substring local-name() compared against the empty name. -/
theorem C5_slash_empty_step :
    normalize_xpath "/" = "\x27][local-name()=\x27\x27]" ∧
    listIsSubstr "local-name()=\x27\x27".data (normalize_xpath "/").data = true := by decide

/-- C6 (confirmed): for a parsed document and a rule whose query executes
and returns zero nodes, processRule (the body main runs once per
(document, rule) pair) emits exactly one row, with status FAIL when the rule
is mandatory (default true) and SKIP otherwise. -/
theorem C6_no_match_single_row : ∀ (rmatch : Matcher) (rel file : String)
    (tree : XTreeQuery) (rule : RuleJson),
    tree (normalize_xpath (rule.xpath.getD "")) = .ok [] →
    processRule rmatch rel file tree rule =
      .ok [[rel, file, rule.rule_id.getD "UNKNOWN", rule.description.getD "",
            normalize_xpath (rule.xpath.getD ""), rule.expected.getD "", "",
            if rule.mandatory.getD true then "FAIL" else "SKIP"]] := by
  intro rmatch rel file tree rule h
  simp only [processRule]
  rw [h]

/-- Witness for C6 at a concrete optional rule and a tree with no match. -/
theorem C6_witness :
    processRule okMatcher "a.arxml" "a.arxml" emptyTree skipRule =
      .ok [["a.arxml", "a.arxml", "R2", "optional rule", normalize_xpath "/A/B",
            "", "", "SKIP"]] :=
  C6_no_match_single_row okMatcher "a.arxml" "a.arxml" emptyTree skipRule rfl

/-- C8 (confirmed): the EXISTS condition ignores the expected value, and its
result is true exactly when the actual value is neither None nor the empty
string. -/
theorem C8_exists_ignores_expected : ∀ (rmatch : Matcher) (a : Option String)
    (e1 e2 : String),
    evaluate_condition rmatch a e1 "EXISTS" = evaluate_condition rmatch a e2 "EXISTS" ∧
    (evaluate_condition rmatch a e1 "EXISTS" = .ok true ↔ a ≠ none ∧ a ≠ some "") := by
  intro rmatch a e1 e2
  have h : ∀ e : String,
      evaluate_condition rmatch a e "EXISTS" = .ok (!(a == none || a == some "")) := by
    intro e
    unfold evaluate_condition
    rw [if_neg (by decide), if_neg (by decide), if_pos rfl]
  refine ⟨by rw [h e1, h e2], ?_⟩
  rw [h e1]
  cases a with
  | none => simp
  | some s =>
    by_cases hs : s = ""
    · subst hs; simp
    · simp [hs]

/-- C10 (confirmed): main reads every rule field through a defaulting get:
an absent rule_id becomes UNKNOWN, absent description, xpath, condition and
expected become the empty string, and absent mandatory becomes true; with the
defaulted empty condition the dispatch is fail-closed, so every matched node
of such a rule yields a FAIL row, and its no-match row is FAIL rather than
SKIP. -/
theorem C10_rule_defaults : ∀ (rmatch : Matcher) (rel file : String)
    (tree : XTreeQuery) (r : RuleJson), r.condition = none →
    (∀ t ts, tree (normalize_xpath (r.xpath.getD "")) = .ok (t :: ts) →
      processRule rmatch rel file tree r =
        .ok ((t :: ts).map fun u =>
          [rel, file, r.rule_id.getD "UNKNOWN", r.description.getD "",
           normalize_xpath (r.xpath.getD ""), r.expected.getD "",
           pyStrip (u.getD ""), "FAIL"])) ∧
    (r.mandatory = none → tree (normalize_xpath (r.xpath.getD "")) = .ok [] →
      processRule rmatch rel file tree r =
        .ok [[rel, file, r.rule_id.getD "UNKNOWN", r.description.getD "",
              normalize_xpath (r.xpath.getD ""), r.expected.getD "", "", "FAIL"]]) := by
  intro rmatch rel file tree r hc
  constructor
  · intro t ts ht
    simp only [processRule]
    rw [ht, hc]
    exact evalElements_unknown_cond rmatch rel file (r.rule_id.getD "UNKNOWN")
      (r.description.getD "") (normalize_xpath (r.xpath.getD ""))
      (r.expected.getD "") (t :: ts)
  · intro hm ht
    simp only [processRule]
    rw [ht, hm]
    rfl

/-- Witness for C10: the all-defaults rule against one matched node with
padded text, and against a no-match tree. -/
theorem C10_witness :
    (processRule okMatcher "a.arxml" "a.arxml" spacedTree noCondRule =
      .ok [["a.arxml", "a.arxml", "UNKNOWN", "", normalize_xpath "/A/B", "",
            "x", "FAIL"]]) ∧
    (processRule okMatcher "a.arxml" "a.arxml" emptyTree noCondRule =
      .ok [["a.arxml", "a.arxml", "UNKNOWN", "", normalize_xpath "/A/B", "",
            "", "FAIL"]]) :=
  ⟨(C10_rule_defaults okMatcher "a.arxml" "a.arxml" spacedTree noCondRule rfl).1
      (some " x ") [] rfl,
   (C10_rule_defaults okMatcher "a.arxml" "a.arxml" emptyTree noCondRule rfl).2 rfl rfl⟩

/-- Every row the per-node loop emits has 8 entries and a PASS or FAIL
status. -/
theorem evalElements_rows (rmatch : Matcher) (rel file rid d xp ex c : String) :
    ∀ ts rows, evalElements rmatch rel file rid d xp ex c ts = .ok rows →
    ∀ row ∈ rows, row.length = 8 ∧ (rowStatus row = "PASS" ∨ rowStatus row = "FAIL") := by
  intro ts
  induction ts with
  | nil =>
    intro rows h row hm
    simp only [evalElements] at h
    cases h
    simp at hm
  | cons t ts ih =>
    intro rows h row hm
    simp only [evalElements] at h
    cases hev : evaluate_condition rmatch (some (pyStrip (t.getD ""))) ex c with
    | error e => rw [hev] at h; exact Except.noConfusion h
    | ok b =>
      rw [hev] at h
      cases hrec : evalElements rmatch rel file rid d xp ex c ts with
      | error e => rw [hrec] at h; exact Except.noConfusion h
      | ok rows2 =>
        rw [hrec] at h
        cases h
        rcases List.mem_cons.mp hm with h1 | h1
        · subst h1
          refine ⟨rfl, ?_⟩
          cases b
          · right; rfl
          · left; rfl
        · exact ih rows2 hrec row h1

/-- Every row the rule body emits has 8 entries and a status among PASS,
FAIL, SKIP and INVALID_XPATH. -/
theorem processRule_rows (rmatch : Matcher) (rel file : String) (tree : XTreeQuery)
    (rule : RuleJson) :
    ∀ rows, processRule rmatch rel file tree rule = .ok rows →
    ∀ row ∈ rows, row.length = 8 ∧
      rowStatus row ∈ (["PASS", "FAIL", "SKIP", "INVALID_XPATH"] : List String) := by
  intro rows h row hm
  simp only [processRule] at h
  cases hq : tree (normalize_xpath (rule.xpath.getD "")) with
  | error e =>
    rw [hq] at h
    cases h
    rw [List.mem_singleton] at hm
    subst hm
    exact ⟨rfl, by simp [rowStatus]⟩
  | ok l =>
    rw [hq] at h
    cases l with
    | nil =>
      cases h
      rw [List.mem_singleton] at hm
      subst hm
      refine ⟨rfl, ?_⟩
      cases hb : rule.mandatory.getD true <;> simp [hb, rowStatus]
    | cons t ts =>
      obtain ⟨hlen, hst⟩ := evalElements_rows rmatch rel file (rule.rule_id.getD "UNKNOWN")
        (rule.description.getD "") (normalize_xpath (rule.xpath.getD ""))
        (rule.expected.getD "") (rule.condition.getD "") (t :: ts) rows h row hm
      refine ⟨hlen, ?_⟩
      rcases hst with hst | hst <;> simp [hst]

/-- Row shape invariant over the whole rule loop of one parsed document. -/
theorem runRules_rows (rmatch : Matcher) (rel file : String) (tree : XTreeQuery) :
    ∀ rules rows, runRules rmatch rel file tree rules = .ok rows →
    ∀ row ∈ rows, row.length = 8 ∧
      rowStatus row ∈ (["PASS", "FAIL", "SKIP", "INVALID_XPATH"] : List String) := by
  intro rules
  induction rules with
  | nil =>
    intro rows h row hm
    cases h
    simp at hm
  | cons r rs ih =>
    intro rows h row hm
    simp only [runRules] at h
    cases hpr : processRule rmatch rel file tree r with
    | error e => rw [hpr] at h; exact Except.noConfusion h
    | ok rows1 =>
      rw [hpr] at h
      cases hrr : runRules rmatch rel file tree rs with
      | error e => rw [hrr] at h; exact Except.noConfusion h
      | ok rows2 =>
        rw [hrr] at h
        cases h
        rcases List.mem_append.mp hm with h1 | h1
        · exact processRule_rows rmatch rel file tree r rows1 hpr row h1
        · exact ih rows2 hrr row h1

/-- Status invariant per document, parse failures included (their single row
ends in FAIL). -/
theorem processDocument_status (rmatch : Matcher) (rules : List RuleJson) (doc : Document) :
    ∀ rows, processDocument rmatch rules doc = .ok rows →
    ∀ row ∈ rows, rowStatus row ∈ (["PASS", "FAIL", "SKIP", "INVALID_XPATH"] : List String) := by
  intro rows h row hm
  simp only [processDocument] at h
  cases hp : doc.parse with
  | error e =>
    rw [hp] at h
    cases h
    rw [List.mem_singleton] at hm
    subst hm
    simp [rowStatus]
  | ok tree =>
    rw [hp] at h
    exact (runRules_rows rmatch doc.rel_path doc.file_name tree rules rows h row hm).2

/-- Status invariant over the whole scan loop. -/
theorem runDocs_status (rmatch : Matcher) (rules : List RuleJson) :
    ∀ docs rows, runDocs rmatch rules docs = .ok rows →
    ∀ row ∈ rows, rowStatus row ∈ (["PASS", "FAIL", "SKIP", "INVALID_XPATH"] : List String) := by
  intro docs
  induction docs with
  | nil =>
    intro rows h row hm
    cases h
    simp at hm
  | cons d ds ih =>
    intro rows h row hm
    simp only [runDocs] at h
    by_cases hf : isArxmlName d.file_name = true
    · rw [if_pos hf] at h
      cases hpd : processDocument rmatch rules d with
      | error e => rw [hpd] at h; exact Except.noConfusion h
      | ok rows1 =>
        rw [hpd] at h
        cases hrd : runDocs rmatch rules ds with
        | error e => rw [hrd] at h; exact Except.noConfusion h
        | ok rows2 =>
          rw [hrd] at h
          cases h
          rcases List.mem_append.mp hm with h1 | h1
          · exact processDocument_status rmatch rules d rows1 hpd row h1
          · exact ih rows2 hrd row h1
    · rw [if_neg hf] at h
      exact ih rows h row hm

/-- C4 (counterexample): a run whose document rejects the query emits a row
with status INVALID_XPATH, a value outside the claimed status set and in
particular different from the claimed INVALID_QUERY. -/
theorem C4_counterexample :
    mainLoop okMatcher [eqRule] [docQueryFails] = .ok [invalidRow] ∧
    rowStatus invalidRow ∉
      (["PASS", "FAIL", "SKIP", "PARSE_ERROR", "INVALID_QUERY"] : List String) := by
  constructor
  · rfl
  · decide

/-- C4 (amended): every row the engine emits has its status drawn from
PASS, FAIL, SKIP, INVALID_XPATH; and the row emitted when the tree engine
rejects a normalized query carries status INVALID_XPATH with an empty actual
value. -/
theorem C4_status_set :
    (∀ (rmatch : Matcher) (rules : List RuleJson) (docs : List Document) rows,
      mainLoop rmatch rules docs = .ok rows →
      ∀ row ∈ rows,
        rowStatus row ∈ (["PASS", "FAIL", "SKIP", "INVALID_XPATH"] : List String)) ∧
    (∀ (rmatch : Matcher) (rel file : String) (tree : XTreeQuery) (rule : RuleJson)
      (e : String), tree (normalize_xpath (rule.xpath.getD "")) = .error e →
      processRule rmatch rel file tree rule =
        .ok [[rel, file, rule.rule_id.getD "UNKNOWN", rule.description.getD "",
              normalize_xpath (rule.xpath.getD ""), rule.expected.getD "", "",
              "INVALID_XPATH"]]) := by
  constructor
  · intro rmatch rules docs rows h row hm
    simp only [mainLoop] at h
    by_cases he : rules.isEmpty = true
    · rw [if_pos he] at h
      exact Except.noConfusion h
    · rw [if_neg he] at h
      exact runDocs_status rmatch rules docs rows h row hm
  · intro rmatch rel file tree rule e ht
    simp only [processRule]
    rw [ht]

/-- Witness for C4: the amended statement applied to the concrete
query-rejecting run and to the concrete query-rejecting rule body. -/
theorem C4_witness :
    rowStatus invalidRow ∈ (["PASS", "FAIL", "SKIP", "INVALID_XPATH"] : List String) ∧
    processRule okMatcher "q.arxml" "q.arxml" failTree eqRule = .ok [invalidRow] :=
  ⟨C4_status_set.1 okMatcher [eqRule] [docQueryFails] [invalidRow] rfl invalidRow
      (List.mem_singleton.mpr rfl),
   C4_status_set.2 okMatcher "q.arxml" "q.arxml" failTree eqRule
      "XPathEvalError: Invalid expression" rfl⟩

/-- C9 (confirmed): every row of a successfully parsed document has exactly
as many entries as the declared report columns (8), while the single row of a
parse failure has only 7, with the error message sitting in the
expected-value position (index 5) and the FAIL status in the actual-value
position (index 6). -/
theorem C9_row_widths : ∀ (rmatch : Matcher) (rules : List RuleJson)
    (rel file msg : String),
    (processDocument rmatch rules ⟨rel, file, .error msg⟩ =
      .ok [[rel, file, "PARSE_ERROR", "", "", msg, "FAIL"]]) ∧
    ([rel, file, "PARSE_ERROR", "", "", msg, "FAIL"] : Row).length = 7 ∧
    ([rel, file, "PARSE_ERROR", "", "", msg, "FAIL"] : Row).getD 5 "" = msg ∧
    ([rel, file, "PARSE_ERROR", "", "", msg, "FAIL"] : Row).getD 6 "" = "FAIL" ∧
    reportColumns.length = 8 ∧
    (∀ (tree : XTreeQuery) rows,
      processDocument rmatch rules ⟨rel, file, .ok tree⟩ = .ok rows →
      ∀ row ∈ rows, row.length = reportColumns.length) := by
  intro rmatch rules rel file msg
  refine ⟨rfl, rfl, rfl, rfl, rfl, ?_⟩
  intro tree rows h row hm
  exact (runRules_rows rmatch rel file tree rules rows h row hm).1

/-- Witness for C9 at a concrete parsed document. -/
theorem C9_witness : passRow.length = reportColumns.length :=
  (C9_row_widths okMatcher [eqRule] "a.arxml" "a.arxml" "boom").2.2.2.2.2 goodTree
    [passRow] rfl passRow (List.mem_singleton.mpr rfl)

/-- When the matcher collaborator never raises, no branch of the condition
dispatch raises. -/
theorem evaluate_condition_isOk (rmatch : Matcher)
    (hr : ∀ p s, exceptIsOk (rmatch p s) = true) (a : Option String) (e c : String) :
    exceptIsOk (evaluate_condition rmatch a e c) = true := by
  unfold evaluate_condition
  split
  · rfl
  split
  · rfl
  split
  · rfl
  split
  · rfl
  split
  · exact hr e (a.getD "")
  · rfl

/-- When the matcher never raises, the per-node loop always succeeds. -/
theorem evalElements_isOk (rmatch : Matcher)
    (hr : ∀ p s, exceptIsOk (rmatch p s) = true) (rel file rid d xp ex c : String) :
    ∀ ts, exceptIsOk (evalElements rmatch rel file rid d xp ex c ts) = true := by
  intro ts
  induction ts with
  | nil => rfl
  | cons t ts ih =>
    simp only [evalElements]
    cases hev : evaluate_condition rmatch (some (pyStrip (t.getD ""))) ex c with
    | error e =>
      have := evaluate_condition_isOk rmatch hr (some (pyStrip (t.getD ""))) ex c
      rw [hev] at this
      exact absurd this (by simp [exceptIsOk])
    | ok b =>
      cases hrec : evalElements rmatch rel file rid d xp ex c ts with
      | error e =>
        rw [hrec] at ih
        exact absurd ih (by simp [exceptIsOk])
      | ok rows => rfl

/-- When the matcher never raises, the rule body always succeeds. -/
theorem processRule_isOk (rmatch : Matcher)
    (hr : ∀ p s, exceptIsOk (rmatch p s) = true) (rel file : String)
    (tree : XTreeQuery) (rule : RuleJson) :
    exceptIsOk (processRule rmatch rel file tree rule) = true := by
  simp only [processRule]
  cases hq : tree (normalize_xpath (rule.xpath.getD "")) with
  | error e => rfl
  | ok l =>
    cases l with
    | nil => rfl
    | cons t ts =>
      exact evalElements_isOk rmatch hr rel file (rule.rule_id.getD "UNKNOWN")
        (rule.description.getD "") (normalize_xpath (rule.xpath.getD ""))
        (rule.expected.getD "") (rule.condition.getD "") (t :: ts)

/-- When the matcher never raises, the rule loop always succeeds. -/
theorem runRules_isOk (rmatch : Matcher)
    (hr : ∀ p s, exceptIsOk (rmatch p s) = true) (rel file : String)
    (tree : XTreeQuery) :
    ∀ rules, exceptIsOk (runRules rmatch rel file tree rules) = true := by
  intro rules
  induction rules with
  | nil => rfl
  | cons r rs ih =>
    simp only [runRules]
    cases hpr : processRule rmatch rel file tree r with
    | error e =>
      have := processRule_isOk rmatch hr rel file tree r
      rw [hpr] at this
      exact absurd this (by simp [exceptIsOk])
    | ok rows1 =>
      cases hrr : runRules rmatch rel file tree rs with
      | error e =>
        rw [hrr] at ih
        exact absurd ih (by simp [exceptIsOk])
      | ok rows2 => rfl

/-- When the matcher never raises, every document unit succeeds (a parse
failure is captured as a row, not an exception). -/
theorem processDocument_isOk (rmatch : Matcher)
    (hr : ∀ p s, exceptIsOk (rmatch p s) = true) (rules : List RuleJson)
    (doc : Document) :
    exceptIsOk (processDocument rmatch rules doc) = true := by
  simp only [processDocument]
  cases hp : doc.parse with
  | error e => rfl
  | ok tree => exact runRules_isOk rmatch hr doc.rel_path doc.file_name tree rules

/-- When the matcher never raises, the whole scan loop succeeds. -/
theorem runDocs_isOk (rmatch : Matcher)
    (hr : ∀ p s, exceptIsOk (rmatch p s) = true) (rules : List RuleJson) :
    ∀ docs, exceptIsOk (runDocs rmatch rules docs) = true := by
  intro docs
  induction docs with
  | nil => rfl
  | cons d ds ih =>
    simp only [runDocs]
    by_cases hf : isArxmlName d.file_name = true
    · rw [if_pos hf]
      cases hpd : processDocument rmatch rules d with
      | error e =>
        have := processDocument_isOk rmatch hr rules d
        rw [hpd] at this
        exact absurd this (by simp [exceptIsOk])
      | ok rows1 =>
        cases hrd : runDocs rmatch rules ds with
        | error e =>
          rw [hrd] at ih
          exact absurd ih (by simp [exceptIsOk])
        | ok rows2 => rfl
    · rw [if_neg hf]
      exact ih

/-- C2 (counterexample): with one loaded rule whose REGEX expected value is
the malformed pattern consisting of one opening bracket, and one parsable
document with one matched node, the run does not complete: the fault raised
during condition evaluation escapes the engine as an abort, because the
per-node loop has no exception handler. -/
theorem C2_counterexample :
    mainLoop badPatternMatcher [regexRule] [docParsed] =
      .error (.evalFault "unterminated character set at position 0") ∧
    exceptIsOk (mainLoop badPatternMatcher [regexRule] [docParsed]) = false := by
  constructor
  · rfl
  · rfl

/-- C2 (amended): the zero-rules precondition aborts before any document is
processed; parse failures and query failures are captured as rows; and
whenever condition evaluation never raises (the matcher collaborator never
raises), the run completes and yields the full report. -/
theorem C2_fault_policy : ∀ (rmatch : Matcher) (rules : List RuleJson)
    (docs : List Document),
    (rules = [] → mainLoop rmatch rules docs = .error (.noRules "ERROR: No rules loaded")) ∧
    (rules ≠ [] → (∀ p s, exceptIsOk (rmatch p s) = true) →
      exceptIsOk (mainLoop rmatch rules docs) = true) := by
  intro rmatch rules docs
  constructor
  · intro h
    subst h
    rfl
  · intro hne hr
    cases rules with
    | nil => exact absurd rfl hne
    | cons r rs =>
      show exceptIsOk (mainLoop rmatch (r :: rs) docs) = true
      simp only [mainLoop]
      rw [if_neg (by simp)]
      exact runDocs_isOk rmatch hr (r :: rs) docs

/-- Witness for C2: a well-formed-pattern run over the same rule and
document completes. -/
theorem C2_witness : exceptIsOk (mainLoop okMatcher [regexRule] [docParsed]) = true :=
  (C2_fault_policy okMatcher [regexRule] [docParsed]).2 (List.cons_ne_nil _ _)
    (fun _ _ => rfl)

/-- C3 (counterexample): a document whose parse fails yields exactly one
row even with two rules loaded, but that row does not carry a PARSE_ERROR
status: it has only 7 entries, its last entry (the status slot the code
writes) is FAIL, and the 8th column position is absent. -/
theorem C3_counterexample :
    mainLoop okMatcher [eqRule, skipRule] [docBad] = .ok [parseRow] ∧
    parseRow.length = 7 ∧
    rowStatus parseRow = "FAIL" ∧
    rowStatus parseRow ≠ "PARSE_ERROR" ∧
    parseRow.getD 7 "" = "" := by
  refine ⟨rfl, rfl, rfl, ?_, rfl⟩
  decide

/-- C3 (amended): a parse failure contributes exactly one row regardless of
how many rules are loaded: rule_id PARSE_ERROR, empty description, the
captured message in the sixth (expected-column) slot and FAIL as the final
entry; no rule is evaluated for that document and the scan continues with
the remaining documents unchanged. -/
theorem C3_parse_error_row : ∀ (rmatch : Matcher) (rules : List RuleJson)
    (rel file msg : String) (rest : List Document),
    rules ≠ [] → isArxmlName file = true →
    mainLoop rmatch rules (⟨rel, file, .error msg⟩ :: rest) =
      (mainLoop rmatch rules rest).map
        (fun rows => [rel, file, "PARSE_ERROR", "", "", msg, "FAIL"] :: rows) := by
  intro rmatch rules rel file msg rest hne hf
  cases rules with
  | nil => exact absurd rfl hne
  | cons r rs =>
    show runDocs rmatch (r :: rs) (⟨rel, file, .error msg⟩ :: rest) =
      (runDocs rmatch (r :: rs) rest).map
        (fun rows => [rel, file, "PARSE_ERROR", "", "", msg, "FAIL"] :: rows)
    simp only [runDocs]
    rw [if_pos hf]
    cases hrd : runDocs rmatch (r :: rs) rest with
    | error e => rfl
    | ok rows2 => rfl

/-- Witness for C3: concrete instantiation with one rule and no further
documents. -/
theorem C3_witness :
    mainLoop okMatcher [eqRule] [⟨"b.arxml", "b.arxml", .error "boom"⟩] =
      (mainLoop okMatcher [eqRule] ([] : List Document)).map
        (fun rows => ["b.arxml", "b.arxml", "PARSE_ERROR", "", "", "boom", "FAIL"] :: rows) :=
  C3_parse_error_row okMatcher [eqRule] "b.arxml" "b.arxml" "boom" []
    (List.cons_ne_nil _ _) rfl

/-- The empty pattern occurs in every string. -/
theorem listIsSubstr_nil_pat : ∀ l : List Char, listIsSubstr [] l = true := by
  intro l
  cases l <;> rfl

/-- The empty list is a prefix of every list. -/
theorem nil_isPrefixOf : ∀ t : List Char, List.isPrefixOf [] t = true := by
  intro t
  cases t <;> rfl

/-- A list is a prefix of itself followed by anything. -/
theorem isPrefixOf_append_self : ∀ p t : List Char, p.isPrefixOf (p ++ t) = true := by
  intro p
  induction p with
  | nil => intro t; exact nil_isPrefixOf t
  | cons a as ih =>
    intro t
    simp [List.isPrefixOf, ih]

/-- A pattern occurs at the front of itself followed by anything. -/
theorem listIsSubstr_here : ∀ pat t : List Char, listIsSubstr pat (pat ++ t) = true := by
  intro pat t
  cases pat with
  | nil => exact listIsSubstr_nil_pat t
  | cons p ps =>
    have h1 : (p :: ps).isPrefixOf (p :: (ps ++ t)) = true :=
      isPrefixOf_append_self (p :: ps) t
    show ((p :: ps).isPrefixOf (p :: (ps ++ t)) || listIsSubstr (p :: ps) (ps ++ t)) = true
    rw [h1]
    rfl

/-- Occurrence is preserved under consing one more character in front. -/
theorem listIsSubstr_cons_of : ∀ (pat : List Char) (c : Char) (l : List Char),
    listIsSubstr pat l = true → listIsSubstr pat (c :: l) = true := by
  intro pat c l h
  show (pat.isPrefixOf (c :: l) || listIsSubstr pat l) = true
  rw [h]
  simp

/-- A pattern occurs in any string that contains it in the middle. -/
theorem listIsSubstr_of_middle : ∀ (s pat t : List Char),
    listIsSubstr pat (s ++ (pat ++ t)) = true := by
  intro s
  induction s with
  | nil => intro pat t; exact listIsSubstr_here pat t
  | cons c s2 ih =>
    intro pat t
    show listIsSubstr pat (c :: (s2 ++ (pat ++ t))) = true
    exact listIsSubstr_cons_of pat c _ (ih pat t)

/-- Data of a string concatenation. -/
theorem stringDataAppend : ∀ a b : String, (a ++ b).data = a.data ++ b.data := by
  intro a b
  obtain ⟨la⟩ := a
  obtain ⟨lb⟩ := b
  rfl

/-- The first replace of normalize_xpath keeps a leading separator in front:
either the input starts with a double separator, matched and replaced by a
text that itself starts with a separator, or the single leading separator is
copied. -/
theorem replace1_head : ∀ t : List Char, ∃ u,
    replaceFuel "//".data "//*[local-name()=\x27".data (t.length + 1) ('/' :: t) =
      '/' :: u := by
  intro t
  simp only [replaceFuel]
  split
  · exact ⟨_, rfl⟩
  · exact ⟨_, rfl⟩

/-- The second replace of normalize_xpath, applied to a string with a
leading separator, puts the replacement text in front. -/
theorem replace2_front : ∀ t : List Char,
    replaceFuel "/".data "\x27][local-name()=\x27".data (t.length + 1) ('/' :: t) =
      "\x27][local-name()=\x27".data ++
        replaceFuel "/".data "\x27][local-name()=\x27".data t.length t := by
  intro t
  simp only [replaceFuel]
  have hc : (!List.isEmpty "/".data && List.isPrefixOf "/".data ('/' :: t)) = true := by
    have h : List.isPrefixOf "/".data ('/' :: t) = List.isPrefixOf ([] : List Char) t := rfl
    rw [h, nil_isPrefixOf t]
    rfl
  rw [if_pos hc]
  rfl

/-- An expression that already contains the ignore-namespace marker is
returned unchanged by normalize_xpath. -/
theorem normalize_of_marker : ∀ s : String,
    listIsSubstr marker.data s.data = true → normalize_xpath s = s := by
  intro s h
  simp only [normalize_xpath]
  rw [if_pos h]

/-- A marker-free expression with a leading separator normalizes to an
expression that contains the marker, so a second normalize is the
identity. -/
theorem normalize_idem_core : ∀ cs : List Char,
    listIsSubstr marker.data ('/' :: cs) = false →
    normalize_xpath (normalize_xpath ⟨'/' :: cs⟩) = normalize_xpath ⟨'/' :: cs⟩ := by
  intro cs hm
  have hni : normalize_xpath ⟨'/' :: cs⟩ =
      pyReplace (pyReplace ⟨'/' :: cs⟩ "//" "//*[local-name()=\x27") "/"
        "\x27][local-name()=\x27" ++ "\x27]" := by
    simp only [normalize_xpath]
    rw [if_neg (by simp [hm])]
  have hmem : listIsSubstr marker.data (normalize_xpath ⟨'/' :: cs⟩).data = true := by
    rw [hni, stringDataAppend]
    obtain ⟨u, hu⟩ := replace1_head cs
    have hy : (pyReplace ⟨'/' :: cs⟩ "//" "//*[local-name()=\x27").data = '/' :: u := hu
    have hz : (pyReplace (pyReplace ⟨'/' :: cs⟩ "//" "//*[local-name()=\x27") "/"
        "\x27][local-name()=\x27").data =
        "\x27][local-name()=\x27".data ++
          replaceFuel "/".data "\x27][local-name()=\x27".data u.length u := by
      have h1 : (pyReplace (pyReplace ⟨'/' :: cs⟩ "//" "//*[local-name()=\x27") "/"
          "\x27][local-name()=\x27").data =
          replaceFuel "/".data "\x27][local-name()=\x27".data
            (pyReplace ⟨'/' :: cs⟩ "//" "//*[local-name()=\x27").data.length
            (pyReplace ⟨'/' :: cs⟩ "//" "//*[local-name()=\x27").data := rfl
      rw [h1, hy, List.length_cons]
      exact replace2_front u
    rw [hz]
    have hr2 : "\x27][local-name()=\x27".data =
        ['\x27', ']', '['] ++ (marker.data ++ ['=', '\x27']) := rfl
    rw [hr2]
    simp only [List.append_assoc]
    exact listIsSubstr_of_middle ['\x27', ']', '['] marker.data _
  exact normalize_of_marker _ hmem

/-- C7 (confirmed): on every path expression in the normalizer domain (an
absolute path, so starting with the separator) that does not already carry
the ignore-namespace marker, normalize_xpath is idempotent; and any
expression already containing the marker is returned unchanged. -/
theorem C7_normalize_idempotent : ∀ x : String,
    (x.data.head? = some '/' → listIsSubstr marker.data x.data = false →
      normalize_xpath (normalize_xpath x) = normalize_xpath x) ∧
    (listIsSubstr marker.data x.data = true → normalize_xpath x = x) := by
  intro x
  obtain ⟨l⟩ := x
  constructor
  · intro hh hm
    cases l with
    | nil => exact absurd hh (by simp)
    | cons c cs =>
      simp at hh
      subst hh
      exact normalize_idem_core cs hm
  · exact normalize_of_marker ⟨l⟩

/-- Witness for C7: a concrete separator-led marker-free expression, and a
concrete expression already carrying the marker. -/
theorem C7_witness :
    (normalize_xpath (normalize_xpath "/A/B") = normalize_xpath "/A/B") ∧
    (normalize_xpath "//*[local-name()=\x27A\x27]" = "//*[local-name()=\x27A\x27]") :=
  ⟨(C7_normalize_idempotent "/A/B").1 rfl rfl,
   (C7_normalize_idempotent "//*[local-name()=\x27A\x27]").2 rfl⟩

